import Mathlib

/-!
# Verification of the Article Summarizer orchestration layer

Shallow embedding of `Article_Summarizer.py`: a Streamlit application that
accepts pasted text or a URL, runs one of four extractive summarizers
(sumy) or an abstractive one (BART), and renders the summary together with
word-count statistics.

The external libraries (sumy, transformers, newspaper, nltk) are opaque
capabilities: they are modelled as parameters collected in the `Libs`
structure, so every theorem about the orchestration code is proved for an
arbitrary behaviour of those libraries, and concrete demo instances are
used to evaluate the model on explicit inputs.  The repository code itself
(the dispatch in `sumy_summarizer`, the Streamlit control flow of `main`,
the statistics computation) is translated line by line.
-/

namespace ArticleSummarizer

/-- Python exception values reachable in this program.  `unboundLocalError`
models CPython raising `UnboundLocalError` when a local variable is read
before any assignment (as happens in `sumy_summarizer` for an unrecognized
strategy tag, where no `elif` branch assigns `summarizer`);
`zeroDivisionError` models `ZeroDivisionError` from `/` with zero
denominator; `exc` models any exception raised inside an external library
call, carrying its message. -/
inductive PyErr where
  | unboundLocalError (name : String)
  | zeroDivisionError
  | exc (msg : String)
  deriving DecidableEq, Repr

/-- `str(e)` as interpolated into the f-string `f"Error: {str(e)}"`. -/
def PyErr.str : PyErr → String
  | .unboundLocalError n => "local variable " ++ n ++ " referenced before assignment"
  | .zeroDivisionError => "division by zero"
  | .exc m => m

/-- Python `str.split(sep)` for a non-empty separator, on character lists,
written with structural fuel recursion so that it evaluates inside the
kernel: scan left to right, cutting at each non-overlapping occurrence of
the separator.  The fuel strictly exceeds the list length, so the zero
fuel arm is never reached. -/
def pySplitAux (sep : List Char) : Nat → List Char → List Char → List (List Char)
  | 0, _, cur => [cur.reverse]
  | _ + 1, [], cur => [cur.reverse]
  | fuel + 1, c :: rest, cur =>
    if sep.isPrefixOf (c :: rest) then
      cur.reverse :: pySplitAux sep fuel (List.drop (sep.length - 1) rest) []
    else
      pySplitAux sep fuel rest (c :: cur)

/-- Python `str.split(sep)` (the separator is never empty in this
program). -/
def pySplit (s sep : String) : List String :=
  if sep.data.isEmpty then [s]
  else (pySplitAux sep.data (s.data.length + 1) s.data []).map fun cs => String.mk cs

/-- The four sentence-ranking algorithms of the sumy toolkit, as opaque
deterministic functions from (document text, sentences_count) to the list
of selected sentences (in the order sumy yields them).  Purity of these
fields encodes that sumy implements deterministic statistical rankers; an
`Except` result lets a library call fail with an exception. -/
structure SumyLib where
  lsa : String → Nat → Except PyErr (List String)
  lexRank : String → Nat → Except PyErr (List String)
  luhn : String → Nat → Except PyErr (List String)
  textRank : String → Nat → Except PyErr (List String)

/-- All external capabilities the program calls into: the sumy rankers, the
BART summarization pipeline (text, max_length, min_length), the newspaper
fetch-and-parse of a URL, and nltk word tokenization (a total function:
`word_tokenize` returns a, possibly empty, list of tokens for any string). -/
structure Libs where
  sumy : SumyLib
  bart : String → Nat → Nat → Except PyErr String
  fetchArticle : String → Except PyErr String
  word_tokenize : String → List String

/-- `sumy_summarizer(text, summarizer_type, sentences_count)` of the source:
dispatches on the strategy tag through the `if`/`elif` chain
`lsa / lex / luhn / textrank`; any other tag leaves the local `summarizer`
unassigned, so the call `summarizer(parser.document, sentences_count)`
raises `UnboundLocalError`.  On success the selected sentences are joined
with a single space (`' '.join(...)`). -/
def sumy_summarizer (lib : SumyLib) (text : String) (summarizer_type : String)
    (sentences_count : Nat) : Except PyErr String :=
  let run : Except PyErr (List String) :=
    if summarizer_type = "lsa" then lib.lsa text sentences_count
    else if summarizer_type = "lex" then lib.lexRank text sentences_count
    else if summarizer_type = "luhn" then lib.luhn text sentences_count
    else if summarizer_type = "textrank" then lib.textRank text sentences_count
    else .error (.unboundLocalError "summarizer")
  run.map (fun sentences => String.intercalate " " sentences)

/-- `abstractive_summarizer(text, max_length, min_length)`: one call into
the BART pipeline. -/
def abstractive_summarizer (libs : Libs) (text : String) (max_length : Nat)
    (min_length : Nat) : Except PyErr String :=
  libs.bart text max_length min_length

/-- `get_article_text(url)`: download and parse via newspaper, returning
the article body text; any exception propagates to the caller. -/
def get_article_text (libs : Libs) (url : String) : Except PyErr String :=
  libs.fetchArticle url

/-- Python true division on the rationals: raises `ZeroDivisionError` for a
zero denominator, otherwise divides exactly.  (CPython divides IEEE-754
doubles; the word counts here are small integers and the claims are about
the exact value of the formula, so the embedding uses exact rationals.) -/
def pyDiv (a b : ℚ) : Except PyErr ℚ :=
  if b = 0 then .error .zeroDivisionError else .ok (a / b)

/-- Lines 108-110 of the source:
`ratio = (orig_words - summ_words) / orig_words * 100`. -/
def computeRatio (orig_words summ_words : Nat) : Except PyErr ℚ :=
  (pyDiv ((orig_words : ℚ) - (summ_words : ℚ)) (orig_words : ℚ)).map (fun q => q * 100)

/-- One element rendered to the page by a Streamlit call
(`st.subheader`, `st.write`, `st.success`, `st.error`, `st.text_area`
showing the fetched article).  The `stats` item carries the four fields of
the statistics block. -/
inductive DisplayItem where
  | subheader (s : String)
  | body (s : String)
  | stats (origWords summWords : Nat) (ratio : ℚ) (elapsed : ℚ)
  | errorMsg (s : String)
  | extractedText (s : String)
  deriving DecidableEq, Repr

/-- A call of one of the two summarizer functions, with the exact arguments
passed by `main`. -/
inductive Invocation where
  | extractive (text tag : String) (sentences_count : Nat)
  | abstractive (text : String) (max_length min_length : Nat)
  deriving DecidableEq, Repr

/-- Wall-clock readings for one generation: `time.time()` at the start and
at the rendering of the statistics block. -/
structure Clock where
  start : ℚ
  finish : ℚ

/-- The two input methods offered by `st.radio("Input method:", ("Text", "URL"))`. -/
inductive InputMethod where
  | text
  | url
  deriving DecidableEq, Repr

/-- The five options of the summary-type selectbox, in source order. -/
def summaryOptions : List String :=
  ["Extractive (LSA)", "Extractive (LexRank)", "Extractive (Luhn)",
   "Extractive (TextRank)", "Abstractive (BART)"]

/-- Models `st.selectbox`: the widget always returns one of the listed
options (the user can only pick from the list); `choice` is the position
the user selected. -/
def st_selectbox (options : List String) (choice : Nat) : String :=
  options.getD (choice % options.length) ""

/-- Models `st.slider(min_value, max_value, value)`: the widget clamps the
user selection into `[min_value, max_value]`, so the returned integer is
always within the configured bounds.  `value` is the initial position and
does not affect the returned current position `choice` beyond clamping. -/
def st_slider (min_value max_value _value choice : Nat) : Nat :=
  min max_value (max min_value choice)

/-- The state the user's widgets are in for one Streamlit rerun: radio
selection, the two text widgets, selectbox position, slider position, and
whether the "Generate Summary" button fired this rerun. -/
structure UIInputs where
  input_method : InputMethod
  text_area : String
  url_field : String
  type_choice : Nat
  length_choice : Nat
  generate_clicked : Bool
  deriving DecidableEq, Repr

/-- Python `str.lower()` restricted to the ASCII option strings this
program lowercases (character-wise lowercasing). -/
def pyLower (s : String) : String := String.mk (s.data.map Char.toLower)

/-- Line 98 of the source:
`method = summary_type.split("(")[1].split(")")[0].lower()`. -/
def deriveMethod (summary_type : String) : String :=
  pyLower (((pySplit ((pySplit summary_type "(").getD 1 "") ")").getD 0 ""))

/-- Line 97: `"Extractive" in summary_type` (substring containment: the
split on the needle has more than one piece exactly when the needle
occurs). -/
def isExtractive (summary_type : String) : Bool :=
  (pySplit summary_type "Extractive").length > 1

/-- The body of `if st.button("Generate Summary")` (lines 93-121): the
whole `try` block renders sequentially; when an exception is raised the
Streamlit calls already executed stay on the page and the `except` arm
appends `st.error(f"Error: {str(e)}")`.  Returns the rendered items and
the summarizer invocations performed. -/
def generateHandler (libs : Libs) (clock : Clock) (text : String)
    (summary_type : String) (length : Nat) : List DisplayItem × List Invocation :=
  let call : Except PyErr String × String × Invocation :=
    if isExtractive summary_type then
      let method := deriveMethod summary_type
      (sumy_summarizer libs.sumy text method length, "📋 Extractive Summary",
        .extractive text method length)
    else
      (abstractive_summarizer libs text (length * 30) 30, "✨ Abstractive Summary",
        .abstractive text (length * 30) 30)
  match call with
  | (res, header, inv) =>
    match res with
    | .error e => ([.errorMsg ("Error: " ++ e.str)], [inv])
    | .ok summary =>
      let shown := [DisplayItem.subheader header, DisplayItem.body summary]
      let orig_words := (libs.word_tokenize text).length
      let summ_words := (libs.word_tokenize summary).length
      match computeRatio orig_words summ_words with
      | .error e => (shown ++ [.errorMsg ("Error: " ++ e.str)], [inv])
      | .ok r =>
        (shown ++ [.stats orig_words summ_words r (clock.finish - clock.start)], [inv])

/-- Lines 58-71: resolve the input text.  Text method: the text area
content.  URL method: nothing while the URL field is empty (`if url:`);
otherwise fetch, on success display the extracted text and use it, on any
exception display the error and leave `text` as `""`. -/
def acquireText (libs : Libs) (ui : UIInputs) : String × List DisplayItem :=
  match ui.input_method with
  | .text => (ui.text_area, [])
  | .url =>
    if ui.url_field = "" then ("", [])
    else
      match get_article_text libs ui.url_field with
      | .ok t => (t, [.extractedText t])
      | .error e => ("", [.errorMsg ("Error: " ++ e.str)])

/-- Everything one rerun of `main` produced: the resolved input text, the
page items in render order, and the summarizer invocations performed. -/
structure Render where
  text : String
  items : List DisplayItem
  invoked : List Invocation
  deriving DecidableEq, Repr

/-- One full rerun of `main` (lines 48-121): resolve the input, and only
when the resolved text is non-empty (`if text:`) render the
"Summarization Options" section, read the selectbox and slider, and run
the generation handler when the button fired. -/
def runInteraction (libs : Libs) (clock : Clock) (ui : UIInputs) : Render :=
  let acquired := acquireText libs ui
  let text := acquired.1
  if text = "" then
    { text := text, items := acquired.2, invoked := [] }
  else
    let summary_type := st_selectbox summaryOptions ui.type_choice
    let length := st_slider 1 10 5 ui.length_choice
    if ui.generate_clicked then
      let out := generateHandler libs clock text summary_type length
      { text := text
        items := acquired.2 ++ [.subheader "Summarization Options"] ++ out.1
        invoked := out.2 }
    else
      { text := text
        items := acquired.2 ++ [.subheader "Summarization Options"]
        invoked := [] }

/-- The four states of the Interaction Shell state machine of the design
(AwaitingInput, InputProvided, SummaryDisplayed, ErrorDisplayed), read off
from what one rerun displayed. -/
inductive ShellState where
  | AwaitingInput
  | InputProvided
  | SummaryDisplayed
  | ErrorDisplayed
  deriving DecidableEq, Repr

/-- Whether a page item is an inline error message. -/
def DisplayItem.isError : DisplayItem → Bool
  | .errorMsg _ => true
  | _ => false

/-- Whether a page item is a rendered summary body (`st.write(summary)`). -/
def DisplayItem.isSummaryBody : DisplayItem → Bool
  | .body _ => true
  | _ => false

/-- The shell state after a rerun: an error on the page means
ErrorDisplayed; otherwise a rendered summary means SummaryDisplayed;
otherwise non-empty input means InputProvided; otherwise AwaitingInput. -/
def stateOf (r : Render) : ShellState :=
  if r.items.any DisplayItem.isError then .ErrorDisplayed
  else if r.items.any DisplayItem.isSummaryBody then .SummaryDisplayed
  else if r.text = "" then .AwaitingInput
  else .InputProvided

/-- The summary string shown on the page, if any. -/
def summaryShown (out : List DisplayItem × List Invocation) : Option String :=
  out.1.findSome? fun item =>
    match item with
    | .body s => some s
    | _ => none

/-- Models `nltk.download(bundle)`: ensures the named language-data bundle
is present locally; the documented behaviour is idempotent — a no-op when
the bundle is already installed. -/
def nltk_download (bundle : String) (installed : List String) : List String :=
  if bundle ∈ installed then installed else bundle :: installed

/-- The module-level setup of lines 15-16: the two bundles downloaded when
the module loads, in order. -/
def startupDownloads : List String := ["punkt", "stopwords"]

/-- Runs the module-level setup on the local bundle state. -/
def startup (installed : List String) : List String :=
  startupDownloads.foldl (fun acc b => nltk_download b acc) installed

/-- A whole process: downloads happen at module import (startup) only; the
per-interaction code of `main` performs none. -/
structure ProcessTrace where
  downloads : List String
  bundles : List String
  renders : List Render

/-- Run the process: module-level setup once, then any number of Streamlit
reruns.  The download operations performed are exactly the startup ones;
no interaction touches the bundle state. -/
def runProcess (libs : Libs) (installed : List String)
    (interactions : List (Clock × UIInputs)) : ProcessTrace :=
  { downloads := startupDownloads
    bundles := startup installed
    renders := interactions.map (fun ci => runInteraction libs ci.1 ci.2) }

/-- Demo sumy ranker for evaluating the model on concrete inputs: keep the
first `n` sentences (splitting on `". "`). -/
def firstSentences (text : String) (n : Nat) : Except PyErr (List String) :=
  .ok (((pySplit text ". ").filter (fun s => s ≠ "")).take n)

/-- Demo instance of the sumy toolkit. -/
def demoSumy : SumyLib :=
  { lsa := firstSentences
    lexRank := firstSentences
    luhn := firstSentences
    textRank := firstSentences }

/-- Demo word tokenizer: split on spaces, dropping empty pieces.  Like
nltk `word_tokenize`, it returns `[]` on a whitespace-only string. -/
def wsTokenize (s : String) : List String :=
  (pySplit s " ").filter (fun t => t ≠ "")

/-- Demo article fetcher: succeeds on one known URL, fails (as newspaper
does on a malformed or unreachable URL) on everything else. -/
def demoFetch (url : String) : Except PyErr String :=
  if url = "https://example.com/article" then
    .ok "The economy grew. Markets rallied. Analysts cheered."
  else
    .error (.exc ("Article download failed with URL " ++ url))

/-- Demo instance of all external capabilities. -/
def demoLibs : Libs :=
  { sumy := demoSumy
    bart := fun text _ min_length => .ok (String.intercalate " " ((pySplit text " ").take min_length))
    fetchArticle := demoFetch
    word_tokenize := wsTokenize }

/-- UI state: pasted text, LexRank option selected, button fired. -/
def uiLexRank : UIInputs :=
  { input_method := .text
    text_area := "Deep learning is great. It powers systems. It is fun."
    url_field := ""
    type_choice := 1
    length_choice := 5
    generate_clicked := true }

/-- UI state: pasted single-space text, LSA option selected, button fired. -/
def uiWhitespace : UIInputs :=
  { input_method := .text
    text_area := " "
    url_field := ""
    type_choice := 0
    length_choice := 5
    generate_clicked := true }

/-- UI state: URL method with the malformed URL string. -/
def uiBadUrl : UIInputs :=
  { input_method := .url
    text_area := ""
    url_field := "not a url"
    type_choice := 0
    length_choice := 5
    generate_clicked := false }

/-- UI state: pasted two-sentence text, LSA option selected, button fired. -/
def uiLsa : UIInputs :=
  { input_method := .text
    text_area := "Hello world. Bye now."
    url_field := ""
    type_choice := 0
    length_choice := 5
    generate_clicked := true }

/-- UI state: Text method with an empty text area. -/
def uiEmpty : UIInputs :=
  { input_method := .text
    text_area := ""
    url_field := ""
    type_choice := 0
    length_choice := 5
    generate_clicked := true }

/-- Helper: the `if`/`elif` chain of `sumy_summarizer` has no `else` arm,
so any tag outside the four recognized ones raises `UnboundLocalError`. -/
theorem sumy_summarizer_unknown_tag (lib : SumyLib) (text tag : String) (n : Nat)
    (h1 : tag ≠ "lsa") (h2 : tag ≠ "lex") (h3 : tag ≠ "luhn") (h4 : tag ≠ "textrank") :
    sumy_summarizer lib text tag n = .error (.unboundLocalError "summarizer") := by
  simp [sumy_summarizer, h1, h2, h3, h4, Except.map]

/-- Helper: the slider value is always within the configured bounds. -/
theorem st_slider_mem (minv maxv v c : Nat) (h : minv ≤ maxv) :
    minv ≤ st_slider minv maxv v c ∧ st_slider minv maxv v c ≤ maxv := by
  unfold st_slider
  omega

/-- Helper: the generation handler performs exactly one summarizer
invocation, with the arguments read from the UI. -/
theorem generateHandler_invoked (libs : Libs) (c : Clock) (text stype : String) (len : Nat) :
    (generateHandler libs c text stype len).2
      = [if isExtractive stype then
           Invocation.extractive text (deriveMethod stype) len
         else Invocation.abstractive text (len * 30) 30] := by
  unfold generateHandler
  cases hext : isExtractive stype
  · simp only [hext, Bool.false_eq_true, if_false]
    cases habs : abstractive_summarizer libs text (len * 30) 30 <;> simp [habs]
    case ok s =>
      cases hcr : computeRatio (libs.word_tokenize text).length (libs.word_tokenize s).length <;>
        simp [hcr]
  · simp only [hext, if_true]
    cases hsum : sumy_summarizer libs.sumy text (deriveMethod stype) len <;> simp [hsum]
    case ok s =>
      cases hcr : computeRatio (libs.word_tokenize text).length (libs.word_tokenize s).length <;>
        simp [hcr]

/-- Helper: `nltk.download` leaves a bundle installed. -/
theorem nltk_download_self_mem (b : String) (s : List String) : b ∈ nltk_download b s := by
  unfold nltk_download
  split
  · assumption
  · exact List.mem_cons_self _ _

/-- Helper: `nltk.download` never removes an installed bundle. -/
theorem nltk_download_mono (b b' : String) (s : List String) (h : b ∈ s) :
    b ∈ nltk_download b' s := by
  unfold nltk_download
  split
  · exact h
  · exact List.mem_cons_of_mem _ h

/-- Helper: `nltk.download` is a no-op on an installed bundle. -/
theorem nltk_download_noop (b : String) (s : List String) (h : b ∈ s) :
    nltk_download b s = s := by
  unfold nltk_download
  exact if_pos h

/-- Helper: the startup sequence unfolded. -/
theorem startup_eq (s : List String) :
    startup s = nltk_download "stopwords" (nltk_download "punkt" s) := rfl

/-- C1: FALSE on the code (code bug).  The shell derives the strategy tag
as the lowercased text between the parentheses; for the option
"Extractive (LexRank)" this is "lexrank", which is not one of the four
tags recognized by `sumy_summarizer` (`lsa`, `lex`, `luhn`, `textrank`).
Triggering generation with non-empty text and that option therefore raises
`UnboundLocalError` inside the summarizer and the shell ends in
ErrorDisplayed, not SummaryDisplayed. -/
theorem c1_lexrank_option_unrecognized :
    st_selectbox summaryOptions 1 = "Extractive (LexRank)" ∧
    deriveMethod "Extractive (LexRank)" = "lexrank" ∧
    ("lexrank" ≠ "lsa" ∧ "lexrank" ≠ "lex" ∧ "lexrank" ≠ "luhn" ∧ "lexrank" ≠ "textrank") ∧
    sumy_summarizer demoSumy uiLexRank.text_area "lexrank" 5
      = Except.error (PyErr.unboundLocalError "summarizer") ∧
    stateOf (runInteraction demoLibs ⟨37, 42⟩ uiLexRank) = ShellState.ErrorDisplayed :=
  ⟨by decide, by decide, ⟨by decide, by decide, by decide, by decide⟩, rfl, by decide⟩

/-- C2: for every input text, sentence count and strategy tag outside the
four recognized extractive tags, the Extractive Summarizer fails (the
unassigned local `summarizer` raises) and never silently returns a summary
produced by some default strategy. -/
theorem c2_unknown_tag_fails (lib : SumyLib) (text tag : String) (n : Nat)
    (h1 : tag ≠ "lsa") (h2 : tag ≠ "lex") (h3 : tag ≠ "luhn") (h4 : tag ≠ "textrank") :
    sumy_summarizer lib text tag n = .error (.unboundLocalError "summarizer") ∧
    ∀ s : String, sumy_summarizer lib text tag n ≠ .ok s := by
  have h := sumy_summarizer_unknown_tag lib text tag n h1 h2 h3 h4
  refine ⟨h, fun s hs => ?_⟩
  rw [h] at hs
  cases hs

/-- Witness for C2 at the concrete unrecognized tag "lexrank". -/
theorem c2_witness :
    ("lexrank" ≠ "lsa" ∧ "lexrank" ≠ "lex" ∧ "lexrank" ≠ "luhn" ∧ "lexrank" ≠ "textrank") ∧
    (sumy_summarizer demoSumy "Hello there. Bye now." "lexrank" 3
        = Except.error (PyErr.unboundLocalError "summarizer") ∧
      ∀ s : String, sumy_summarizer demoSumy "Hello there. Bye now." "lexrank" 3 ≠ Except.ok s) :=
  ⟨⟨by decide, by decide, by decide, by decide⟩,
    c2_unknown_tag_fails demoSumy "Hello there. Bye now." "lexrank" 3
      (by decide) (by decide) (by decide) (by decide)⟩

/-- C3: FALSE on the code (code bug).  For the non-empty single-space
input, summarization succeeds and `st.write(summary)` renders the summary,
but the statistics computation then divides by a zero original word count,
so the page shows a summary body together with an error message instead of
statistics — a partial result, contradicting the all-or-error policy. -/
theorem c3_summary_rendered_with_error :
    uiWhitespace.text_area ≠ "" ∧
    (runInteraction demoLibs ⟨0, 1⟩ uiWhitespace).items
      = [DisplayItem.subheader "Summarization Options",
         DisplayItem.subheader "📋 Extractive Summary", DisplayItem.body " ",
         DisplayItem.errorMsg "Error: division by zero"] ∧
    (runInteraction demoLibs ⟨0, 1⟩ uiWhitespace).items.any DisplayItem.isSummaryBody = true ∧
    (runInteraction demoLibs ⟨0, 1⟩ uiWhitespace).items.any DisplayItem.isError = true :=
  ⟨by decide, by decide, by decide, by decide⟩

/-- C4: for every generation with positive original word count, the
computed percentage reduction is exactly
`(orig_words - summ_words) / orig_words * 100`; it is 0 when the counts
are equal and 100 when the summary word count is 0. -/
theorem c4_reduction_formula (o s : Nat) (h : 0 < o) :
    computeRatio o s = .ok (((o : ℚ) - (s : ℚ)) / (o : ℚ) * 100) ∧
    computeRatio o o = .ok 0 ∧
    computeRatio o 0 = .ok 100 := by
  have ho : (o : ℚ) ≠ 0 := Nat.cast_ne_zero.mpr h.ne'
  refine ⟨?_, ?_, ?_⟩
  · simp [computeRatio, pyDiv, ho, Except.map]
  · simp [computeRatio, pyDiv, ho, Except.map]
  · simp [computeRatio, pyDiv, ho, div_self, Except.map]

/-- Witness for C4 at original count 4, summary count 1. -/
theorem c4_witness :
    0 < 4 ∧
    (computeRatio 4 1 = .ok ((((4 : Nat) : ℚ) - ((1 : Nat) : ℚ)) / ((4 : Nat) : ℚ) * 100) ∧
      computeRatio 4 4 = .ok 0 ∧
      computeRatio 4 0 = .ok 100) :=
  ⟨by decide, c4_reduction_formula 4 1 (by decide)⟩

/-- C5: whenever the URL input method is used with a non-empty URL whose
fetch or parse raises, the rerun displays exactly the fetch-error-derived
message, invokes no summarizer, and ends in ErrorDisplayed. -/
theorem c5_fetch_failure_no_summarizer (libs : Libs) (c : Clock) (ui : UIInputs) (e : PyErr)
    (hm : ui.input_method = InputMethod.url) (hu : ui.url_field ≠ "")
    (hf : libs.fetchArticle ui.url_field = .error e) :
    (runInteraction libs c ui).items = [DisplayItem.errorMsg ("Error: " ++ e.str)] ∧
    (runInteraction libs c ui).invoked = [] ∧
    stateOf (runInteraction libs c ui) = ShellState.ErrorDisplayed := by
  have hacq : acquireText libs ui = ("", [DisplayItem.errorMsg ("Error: " ++ e.str)]) := by
    unfold acquireText
    rw [hm]
    simp [hu, get_article_text, hf]
  unfold runInteraction
  rw [hacq]
  simp [stateOf, DisplayItem.isError]

/-- Witness for C5 at the malformed URL string "not a url". -/
theorem c5_witness :
    (uiBadUrl.input_method = InputMethod.url ∧ uiBadUrl.url_field ≠ "" ∧
      demoLibs.fetchArticle uiBadUrl.url_field
        = Except.error (PyErr.exc "Article download failed with URL not a url")) ∧
    ((runInteraction demoLibs ⟨0, 1⟩ uiBadUrl).items
        = [DisplayItem.errorMsg
            ("Error: " ++ (PyErr.exc "Article download failed with URL not a url").str)] ∧
      (runInteraction demoLibs ⟨0, 1⟩ uiBadUrl).invoked = [] ∧
      stateOf (runInteraction demoLibs ⟨0, 1⟩ uiBadUrl) = ShellState.ErrorDisplayed) :=
  ⟨⟨rfl, by decide, rfl⟩,
    c5_fetch_failure_no_summarizer demoLibs ⟨0, 1⟩ uiBadUrl
      (PyErr.exc "Article download failed with URL not a url") rfl (by decide) rfl⟩

/-- C6: extractive (and abstractive) generation is deterministic in the
request arguments: two runs of the generation handler that differ only in
the wall clock display the same summary string and perform the same
invocations — the clock influences only the elapsed-time statistic. -/
theorem c6_generation_deterministic (libs : Libs) (c1 c2 : Clock) (text stype : String)
    (len : Nat) :
    summaryShown (generateHandler libs c1 text stype len)
      = summaryShown (generateHandler libs c2 text stype len) ∧
    (generateHandler libs c1 text stype len).2 = (generateHandler libs c2 text stype len).2 := by
  unfold generateHandler
  cases hext : isExtractive stype
  · simp only [hext, Bool.false_eq_true, if_false]
    cases habs : abstractive_summarizer libs text (len * 30) 30 <;> simp [habs, summaryShown]
    case ok s =>
      cases hcr : computeRatio (libs.word_tokenize text).length (libs.word_tokenize s).length <;>
        simp [hcr, List.findSome?]
  · simp only [hext, if_true]
    cases hsum : sumy_summarizer libs.sumy text (deriveMethod stype) len <;>
      simp [hsum, summaryShown]
    case ok s =>
      cases hcr : computeRatio (libs.word_tokenize text).length (libs.word_tokenize s).length <;>
        simp [hcr, List.findSome?]

/-- C7: with the Text input method and an empty text area, the rerun
renders nothing (in particular no "Summarization Options" section and no
Generate trigger), invokes no summarizer, and the shell stays in
AwaitingInput. -/
theorem c7_empty_text_awaiting_input (libs : Libs) (c : Clock) (ui : UIInputs)
    (hm : ui.input_method = InputMethod.text) (ht : ui.text_area = "") :
    (runInteraction libs c ui).items = [] ∧
    (runInteraction libs c ui).invoked = [] ∧
    stateOf (runInteraction libs c ui) = ShellState.AwaitingInput := by
  have hacq : acquireText libs ui = ("", []) := by
    unfold acquireText
    rw [hm, ht]
  unfold runInteraction
  rw [hacq]
  simp [stateOf]

/-- Witness for C7 at a concrete empty-text UI state (with the button
reported as fired, which is unreachable for the user and ignored). -/
theorem c7_witness :
    (uiEmpty.input_method = InputMethod.text ∧ uiEmpty.text_area = "") ∧
    ((runInteraction demoLibs ⟨0, 1⟩ uiEmpty).items = [] ∧
      (runInteraction demoLibs ⟨0, 1⟩ uiEmpty).invoked = [] ∧
      stateOf (runInteraction demoLibs ⟨0, 1⟩ uiEmpty) = ShellState.AwaitingInput) :=
  ⟨⟨rfl, rfl⟩, c7_empty_text_awaiting_input demoLibs ⟨0, 1⟩ uiEmpty rfl rfl⟩

/-- C8: every extractive invocation performed by the shell passes the
slider value as sentence count, and the slider clamps it into `[1, 10]`,
so the count is always a positive integer between 1 and 10. -/
theorem c8_sentence_count_in_bounds (libs : Libs) (c : Clock) (ui : UIInputs)
    (t tag : String) (n : Nat)
    (h : Invocation.extractive t tag n ∈ (runInteraction libs c ui).invoked) :
    1 ≤ n ∧ n ≤ 10 := by
  unfold runInteraction at h
  by_cases hta : (acquireText libs ui).1 = ""
  · simp [hta] at h
  · simp only [hta, if_false] at h
    by_cases hclick : ui.generate_clicked = true
    · simp only [hclick, if_true] at h
      rw [generateHandler_invoked] at h
      have heq := List.mem_singleton.mp h
      by_cases hext : isExtractive (st_selectbox summaryOptions ui.type_choice) = true
      · rw [if_pos hext] at heq
        have hn : n = st_slider 1 10 5 ui.length_choice := by
          injection heq
        rw [hn]
        exact st_slider_mem 1 10 5 ui.length_choice (by omega)
      · rw [if_neg hext] at heq
        cases heq
    · simp [hclick] at h

/-- Witness for C8: a concrete LSA generation invokes the extractive
summarizer with sentence count 5, which lies within the bounds. -/
theorem c8_witness :
    (Invocation.extractive "Hello world. Bye now." "lsa" 5
      ∈ (runInteraction demoLibs ⟨0, 1⟩ uiLsa).invoked) ∧
    (1 ≤ 5 ∧ 5 ≤ 10) :=
  ⟨by decide,
    c8_sentence_count_in_bounds demoLibs ⟨0, 1⟩ uiLsa "Hello world. Bye now." "lsa" 5 (by decide)⟩

/-- C9: the module-level setup performs exactly two language-data bundle
downloads ("punkt" and "stopwords"), the setup is idempotent (running it
again is a no-op, and it is a no-op when both bundles are already
present), and no per-interaction code path performs any download: a whole
process run records exactly the startup downloads, however many
interactions follow. -/
theorem c9_startup_setup :
    startupDownloads.length = 2 ∧
    (∀ installed : List String, startup (startup installed) = startup installed) ∧
    (∀ installed : List String, "punkt" ∈ installed → "stopwords" ∈ installed →
      startup installed = installed) ∧
    (∀ (libs : Libs) (installed : List String) (is : List (Clock × UIInputs)),
      (runProcess libs installed is).downloads = startupDownloads ∧
      (runProcess libs installed is).bundles = startup installed) := by
  refine ⟨rfl, ?_, ?_, fun libs installed is => ⟨rfl, rfl⟩⟩
  · intro installed
    have hp : "punkt" ∈ startup installed := by
      rw [startup_eq]
      exact nltk_download_mono _ _ _ (nltk_download_self_mem _ _)
    have hs : "stopwords" ∈ startup installed := by
      rw [startup_eq]
      exact nltk_download_self_mem _ _
    rw [startup_eq (startup installed), nltk_download_noop _ _ hp, nltk_download_noop _ _ hs]
  · intro installed hp hs
    rw [startup_eq, nltk_download_noop _ _ hp, nltk_download_noop _ _ hs]

/-- Witness for C9 (idempotence part applied at a concrete bundle state). -/
theorem c9_witness :
    ("punkt" ∈ ["punkt", "stopwords"] ∧ "stopwords" ∈ ["punkt", "stopwords"]) ∧
    startup ["punkt", "stopwords"] = ["punkt", "stopwords"] :=
  ⟨⟨by decide, by decide⟩, c9_startup_setup.2.2.1 ["punkt", "stopwords"] (by decide) (by decide)⟩

/-- C10: the non-emptiness guard does not guarantee a nonzero original
word count.  Whenever the pasted text is non-empty but tokenizes to zero
words, the selected option is "Extractive (LSA)" and the summarizer
succeeds, the rendered page shows the summary followed by the
division-by-zero error message in place of statistics: the error branch of
the generation handler is reached even though summarization succeeded. -/
theorem c10_zero_word_count_reaches_error_branch (libs : Libs) (c : Clock) (ui : UIInputs)
    (s : String) (hm : ui.input_method = InputMethod.text) (hne : ui.text_area ≠ "")
    (hclick : ui.generate_clicked = true)
    (htype : st_selectbox summaryOptions ui.type_choice = "Extractive (LSA)")
    (htok : libs.word_tokenize ui.text_area = [])
    (hsum : sumy_summarizer libs.sumy ui.text_area "lsa" (st_slider 1 10 5 ui.length_choice)
      = .ok s) :
    (runInteraction libs c ui).items
      = [DisplayItem.subheader "Summarization Options",
         DisplayItem.subheader "📋 Extractive Summary", DisplayItem.body s,
         DisplayItem.errorMsg ("Error: " ++ PyErr.zeroDivisionError.str)] := by
  have hacq : acquireText libs ui = (ui.text_area, []) := by
    unfold acquireText
    rw [hm]
  unfold runInteraction
  rw [hacq]
  simp only [hne, if_false, hclick, if_true, htype]
  unfold generateHandler
  have hext : isExtractive "Extractive (LSA)" = true := by decide
  have hder : deriveMethod "Extractive (LSA)" = "lsa" := by decide
  simp [hext, hder, hsum, htok, computeRatio, pyDiv, Except.map]

/-- Witness for C10 at the single-space input with the demo libraries. -/
theorem c10_witness :
    (uiWhitespace.input_method = InputMethod.text ∧ uiWhitespace.text_area ≠ "" ∧
      uiWhitespace.generate_clicked = true ∧
      st_selectbox summaryOptions uiWhitespace.type_choice = "Extractive (LSA)" ∧
      demoLibs.word_tokenize uiWhitespace.text_area = [] ∧
      sumy_summarizer demoLibs.sumy uiWhitespace.text_area "lsa"
        (st_slider 1 10 5 uiWhitespace.length_choice) = .ok " ") ∧
    (runInteraction demoLibs ⟨0, 1⟩ uiWhitespace).items
      = [DisplayItem.subheader "Summarization Options",
         DisplayItem.subheader "📋 Extractive Summary", DisplayItem.body " ",
         DisplayItem.errorMsg ("Error: " ++ PyErr.zeroDivisionError.str)] :=
  ⟨⟨rfl, by decide, rfl, by decide, by decide, rfl⟩,
    c10_zero_word_count_reaches_error_branch demoLibs ⟨0, 1⟩ uiWhitespace " "
      rfl (by decide) rfl (by decide) (by decide) rfl⟩

end ArticleSummarizer
